import Mathlib

/-!
Shallow embedding of the telemetry analysis pipeline of the
asset_monitoring_system repository (src/ml-service), covering:

* `models/disk_predictor.py`      — `DiskSpacePredictor`
* `models/anomaly_detector.py`    — `PerformanceAnomalyDetector`
* `models/performance_analyzer.py`— `PerformanceAnalyzer`
* `services/prediction_service.py`— `PredictionService` (the orchestrator)

Modelling conventions:

* Python floats are idealised as exact rationals (ℚ); `round(x, n)` is
  modelled as rounding half-up at the n-th decimal.
* A telemetry document is a `TelemetrySample`.  Its timestamp is modelled
  as a natural number of seconds; the pandas datetime-derived features
  hour-of-day and day-of-week are carried as fields (`hour`, `dow`), since
  the datetime library is external to the repository.  Missing metric
  values (which the Python code maps to 0 via `fillna(0)` / `.get(key, 0)`)
  are represented as the value 0 directly.
* Python f-strings are kept as their literal template text; no claim
  depends on an interpolated message.
* The scikit-learn estimators used by the anomaly detector
  (`StandardScaler`, `IsolationForest`) are external library code; they are
  abstracted as an arbitrary deterministic `ForestLib` record of functions
  (fit-scaler / transform / fit / predict / decision_function).  Everything
  the repository itself does — feature preparation, the `is_trained` state
  flag, retrain gating, result assembly, severity classification — is
  embedded from the source.
* `LinearRegression` (OLS on one feature) and its `score` (R², with
  scikit-learn's constant-target convention) are embedded numerically.
* Database reads are modelled by passing the fetched windows as arguments,
  and database writes (`save_prediction`) by returning the list of written
  `PredictionRecord`s.  Alert insertion (`create_ml_alert`) is not modelled:
  no claim refers to alerts.
-/

/-! ### Rounding helpers (Python `round(x, n)` idealised over ℚ) -/

def round1 (q : ℚ) : ℚ := ((round (q * 10) : ℤ) : ℚ) / 10

def round2 (q : ℚ) : ℚ := ((round (q * 100) : ℤ) : ℚ) / 100

def round3 (q : ℚ) : ℚ := ((round (q * 1000) : ℤ) : ℚ) / 1000

/-! ### Telemetry samples and windows -/

/-- One telemetry document (`telemetries` collection).  `timestamp` is in
seconds; `hour` / `dow` are the pandas `dt.hour` / `dt.dayofweek` values of
that timestamp. -/
structure TelemetrySample where
  timestamp : ℕ
  cpu : ℚ
  ram : ℚ
  disk : ℚ
  hour : ℕ
  dow : ℕ
deriving DecidableEq

/-- Stable insertion of a sample into a timestamp-sorted list. -/
def insertByTime (x : TelemetrySample) : List TelemetrySample → List TelemetrySample
  | [] => [x]
  | y :: ys => if x.timestamp ≤ y.timestamp then x :: y :: ys else y :: insertByTime x ys

/-- `df.sort_values('timestamp')`. -/
def sortByTime (l : List TelemetrySample) : List TelemetrySample :=
  l.foldr insertByTime []

/-- `(df['timestamp'] - first_time).dt.total_seconds() / 3600` on an
already-sorted window. -/
def hoursElapsed : List TelemetrySample → List ℚ
  | [] => []
  | s0 :: rest => (s0 :: rest).map (fun s => ((s.timestamp : ℚ) - (s0.timestamp : ℚ)) / 3600)

def listMean (l : List ℚ) : ℚ := l.sum / l.length

/-- `Σ (y - c)²` over a list. -/
def devSqSum (c : ℚ) : List ℚ → ℚ
  | [] => 0
  | y :: ys => (y - c) ^ 2 + devSqSum c ys

/-- `Σ (x - cx) * (y - cy)` over two parallel lists. -/
def crossSum (cx cy : ℚ) : List ℚ → List ℚ → ℚ
  | x :: xs, y :: ys => (x - cx) * (y - cy) + crossSum cx cy xs ys
  | _, _ => 0

/-- `Σ (y - (m*x + b))²` over two parallel lists: the squared residuals of
the fitted line. -/
def sqErrSum (m b : ℚ) : List ℚ → List ℚ → ℚ
  | x :: xs, y :: ys => (y - (m * x + b)) ^ 2 + sqErrSum m b xs ys
  | _, _ => 0

/-! ### Ordinary least squares (sklearn `LinearRegression` on one feature) -/

/-- OLS slope; scikit-learn's `lstsq` minimum-norm solution gives 0 when the
regressor has no variance. -/
def olsSlope (xs ys : List ℚ) : ℚ :=
  let sxx := devSqSum (listMean xs) xs
  if sxx = 0 then 0 else crossSum (listMean xs) (listMean ys) xs ys / sxx

def olsIntercept (xs ys : List ℚ) : ℚ :=
  listMean ys - olsSlope xs ys * listMean xs

/-- `LinearRegression().score(X, y)`: the coefficient of determination R²,
with scikit-learn's convention for a constant target (1 on a perfect fit,
0 otherwise). -/
def olsR2 (xs ys : List ℚ) : ℚ :=
  let ssRes := sqErrSum (olsSlope xs ys) (olsIntercept xs ys) xs ys
  let ssTot := devSqSum (listMean ys) ys
  if ssTot = 0 then (if ssRes = 0 then 1 else 0) else 1 - ssRes / ssTot

/-! ### DiskSpacePredictor (`models/disk_predictor.py`) -/

/-- The payload returned by `predict_disk_full_date`.  Keys absent from a
given Python dict are `none`. -/
structure DiskPrediction where
  success : Bool
  message : String
  days_remaining : Option ℚ
  confidence : ℚ
  trend : Option String
  daily_increase_rate : Option ℚ
  current_usage : Option ℚ
deriving DecidableEq

/-- The `X` column of `prepare_data`: hours elapsed, over the sorted window. -/
def xsOf (data : List TelemetrySample) : List ℚ := hoursElapsed (sortByTime data)

/-- The `y` column of `prepare_data`: disk usage, over the sorted window. -/
def ysOf (data : List TelemetrySample) : List ℚ := (sortByTime data).map (fun s => s.disk)

/-- `DiskSpacePredictor.prepare_data`: fails (None, None) below 3 samples,
otherwise yields the regression columns. -/
def prepare_data (data : List TelemetrySample) : Option (List ℚ × List ℚ) :=
  if data.length < 3 then none else some (xsOf data, ysOf data)

def slopeOf (data : List TelemetrySample) : ℚ := olsSlope (xsOf data) (ysOf data)

def interceptOf (data : List TelemetrySample) : ℚ := olsIntercept (xsOf data) (ysOf data)

/-- `max(0.0, min(1.0, self.model.score(X, y)))`. -/
def confidence (data : List TelemetrySample) : ℚ :=
  max 0 (min 1 (olsR2 (xsOf data) (ysOf data)))

/-- `X[-1][0]`, the hours-elapsed of the last (sorted) sample. -/
def currentHours (data : List TelemetrySample) : ℚ := (xsOf data).getLast?.getD 0

/-- `y[-1]`, the disk usage of the last (sorted) sample. -/
def currentUsage (data : List TelemetrySample) : ℚ := (ysOf data).getLast?.getD 0

/-- `DiskSpacePredictor.predict_disk_full_date`.  The bound pair of the
`some` branch is exactly `(xsOf data, ysOf data)`, which the named helpers
recompute. -/
def predict_disk_full_date (data : List TelemetrySample) : DiskPrediction :=
  match prepare_data data with
  | none => ⟨false, "Insufficient data for prediction", none, 0, none, none, none⟩
  | some _xy =>
    let conf := confidence data
    if conf < 0.3 then
      ⟨false, "Data too inconsistent for reliable prediction", none, conf, none, none, none⟩
    else
      let m := slopeOf data
      if m ≤ 0 then
        ⟨true, "Disk usage stable or decreasing", some 999, conf, some ("stable"), none, none⟩
      else
        let b := interceptOf data
        let hoursToFull := (100 - b) / m - currentHours data
        let daysToFull := max 0 (hoursToFull / 24)
        let trend := if m > 0.5 then ("rapidly_increasing")
          else if m > 0.1 then ("increasing") else ("slowly_increasing")
        ⟨true, "Disk predicted to be full in {days_to_full} days",
          some (round1 daysToFull), round2 conf, some trend,
          some (round2 (m * 24)), some (round1 (currentUsage data))⟩

/-- `DiskSpacePredictor.get_recommendation`. -/
def get_recommendation (r : DiskPrediction) : String :=
  if r.success = false then "Unable to generate recommendation - insufficient data"
  else
    match r.days_remaining with
    | none => "Disk space is healthy - no immediate action needed"
    | some days =>
      if days > 30 then "Disk space is healthy - no immediate action needed"
      else if days < 3 then "🚨 URGENT: Disk will be full in <3 days - immediate cleanup required"
      else if days < 7 then "⚠️ WARNING: Schedule disk cleanup within next few days"
      else if days < 14 then "📅 PLAN: Schedule maintenance within 2 weeks"
      else "ℹ️ INFO: Monitor disk usage - trending upward"

/-! ### PerformanceAnalyzer (`models/performance_analyzer.py`)

Only the fields that some claim refers to are embedded: the per-metric
averages feeding `_calculate_health_score`, and the success flag/message.
The max/min/std statistics, the recommendation rules and the time-pattern
analysis are not referenced by any claim and are omitted from the payload. -/

/-- The slice of `_calculate_health_score`'s `stats` argument it reads. -/
structure PerfStats where
  cpu_avg : ℚ
  ram_avg : ℚ
  disk_avg : ℚ
deriving DecidableEq

/-- The payload of `analyze_performance_trends` (restricted to the fields
claims refer to; `health_score` is absent from the failure dict). -/
structure PerfResult where
  success : Bool
  message : String
  health_score : Option ℚ
deriving DecidableEq

/-- `df['cpu_usage_percent'].mean()` over the sorted window. -/
def cpuAvg (data : List TelemetrySample) : ℚ := listMean ((sortByTime data).map (fun s => s.cpu))

def ramAvg (data : List TelemetrySample) : ℚ := listMean ((sortByTime data).map (fun s => s.ram))

def diskAvg (data : List TelemetrySample) : ℚ := listMean ((sortByTime data).map (fun s => s.disk))

/-- `PerformanceAnalyzer._calculate_health_score`: weighted average of the
per-metric scores `max(0, 100 - avg)`, rounded to 1 decimal.  (The Python
`except` branch returning a neutral 50.0 is unreachable in this pure
embedding.) -/
def calculate_health_score (stats : PerfStats) : ℚ :=
  let cpu_score := max 0 (100 - stats.cpu_avg)
  let ram_score := max 0 (100 - stats.ram_avg)
  let disk_score := max 0 (100 - stats.disk_avg)
  round1 (cpu_score * 0.4 + ram_score * 0.4 + disk_score * 0.2)

/-- `PerformanceAnalyzer.analyze_performance_trends`. -/
def analyze_performance_trends (data : List TelemetrySample) : PerfResult :=
  if data.length < 5 then ⟨false, "Insufficient data for analysis", none⟩
  else
    ⟨true, "Analyzed {len(telemetry_data)} data points",
      some (calculate_health_score ⟨cpuAvg data, ramAvg data, diskAvg data⟩)⟩

/-- Modelled from the spec: the health-score formula as §4.3 words it,
`clamp(0,100, 0.4×(100−cpu_avg) + 0.4×(100−ram_avg) + 0.2×(100−disk_avg))`,
used as the refinement target for the code's `calculate_health_score`. -/
def healthScoreSpec (c r d : ℚ) : ℚ :=
  max 0 (min 100 (0.4 * (100 - c) + 0.4 * (100 - r) + 0.2 * (100 - d)))

/-! ### PerformanceAnomalyDetector (`models/anomaly_detector.py`) -/

inductive Severity where
  | Low : Severity
  | Medium : Severity
  | High : Severity
deriving DecidableEq

/-- Numeric rank for comparing severities (Low < Medium < High). -/
def sevRank : Severity → ℕ
  | .Low => 0
  | .Medium => 1
  | .High => 2

/-- `PerformanceAnomalyDetector._calculate_severity`: base severity from the
anomaly score (more negative = more anomalous), then escalation by usage
levels.  The metric reads `telemetry_point.get(key, 0)` are the sample's
fields (missing values are modelled as 0). -/
def calculate_severity (anomaly_score : ℚ) (pt : TelemetrySample) : Severity :=
  let score_severity : Severity :=
    if anomaly_score < -0.5 then .High
    else if anomaly_score < -0.3 then .Medium
    else .Low
  if pt.cpu > 95 ∨ pt.ram > 95 ∨ pt.disk > 95 then .High
  else if pt.cpu > 85 ∨ pt.ram > 85 ∨ pt.disk > 85 then
    (if score_severity ≠ Severity.High then .Medium else .High)
  else score_severity

/-- Modelled from the spec: the usage-escalation floor of §4.2 (High above
95%, Medium above 85%, otherwise no escalation), used as the comparison
point for `calculate_severity`. -/
def usageEscalation (pt : TelemetrySample) : Severity :=
  if pt.cpu > 95 ∨ pt.ram > 95 ∨ pt.disk > 95 then .High
  else if pt.cpu > 85 ∨ pt.ram > 85 ∨ pt.disk > 85 then .Medium
  else .Low

/-- The base severity derived from the anomaly score alone. -/
def baseSeverity (anomaly_score : ℚ) : Severity :=
  if anomaly_score < -0.5 then .High
  else if anomaly_score < -0.3 then .Medium
  else .Low

/-- One entry of the `anomalies` list of a detection result. -/
structure AnomalyRecord where
  timestamp : ℕ
  anomaly_score : ℚ
  cpu_usage : ℚ
  ram_usage : ℚ
  disk_usage : ℚ
  severity : Severity
deriving DecidableEq

/-- The dict returned by `detect_anomalies`.  `anomaly_count` and
`anomaly_rate` are absent from the failure dicts. -/
structure AnomalyResult where
  success : Bool
  message : String
  anomalies : List AnomalyRecord
  anomaly_count : Option ℕ
  anomaly_rate : Option ℚ
deriving DecidableEq

/-- The feature row of `prepare_features`:
`[cpu, ram, disk, hour, day_of_week, total_usage]`. -/
def featureRow (s : TelemetrySample) : List ℚ :=
  [s.cpu, s.ram, s.disk, (s.hour : ℚ), (s.dow : ℚ), (s.cpu + s.ram + s.disk) / 3]

/-- `PerformanceAnomalyDetector.prepare_features`: fails below 10 samples,
otherwise the feature matrix over the timestamp-sorted window. -/
def prepare_features (data : List TelemetrySample) : Option (List (List ℚ)) :=
  if data.length < 10 then none
  else some ((sortByTime data).map featureRow)

/-- Abstraction of the scikit-learn estimators the detector delegates to:
`StandardScaler` (fit on the baseline features, then transform) and
`IsolationForest` with `random_state=42` (fit, `predict` labels in {-1, 1},
`decision_function` scores).  Both are deterministic library code external
to the repository; any such record of functions is admitted. -/
structure ForestLib (S M : Type) where
  fitScaler : List (List ℚ) → S
  transform : S → List (List ℚ) → List (List ℚ)
  fit : List (List ℚ) → M
  predictLabels : M → List (List ℚ) → List ℤ
  decisionScores : M → List (List ℚ) → List ℚ

/-- The mutable state of a `PerformanceAnomalyDetector` instance:
`self.scaler` and `self.model` (None until first fitted) and the
`self.is_trained` flag. -/
structure DetectorState (S M : Type) where
  scaler : Option S
  model : Option M
  is_trained : Bool

/-- `PerformanceAnomalyDetector.__init__`: unfitted estimators,
`is_trained = False`. -/
def initDetectorState {S M : Type} : DetectorState S M := ⟨none, none, false⟩

/-- `PerformanceAnomalyDetector.train_baseline`: on feature-preparation
failure returns False leaving the state unchanged; otherwise
`scaler.fit_transform` then `model.fit`, setting `is_trained`. -/
def train_baseline {S M : Type} (lib : ForestLib S M) (st : DetectorState S M)
    (data : List TelemetrySample) : DetectorState S M × Bool :=
  match prepare_features data with
  | none => (st, false)
  | some feats =>
    let sc := lib.fitScaler feats
    let scaled := lib.transform sc feats
    (⟨some sc, some (lib.fit scaled), true⟩, true)

/-- The scoring tail of `detect_anomalies` (after the optional retrain):
the `is_trained` check, recent-feature preparation, scaling, prediction and
assembly of the result dict.  Anomaly entries pair the i-th prediction with
`recent_telemetry_data[i]` — the original (unsorted) recent list, exactly as
the Python indexing does. -/
def scoreRecent {S M : Type} (lib : ForestLib S M) (st : DetectorState S M)
    (recent : List TelemetrySample) : DetectorState S M × AnomalyResult :=
  if st.is_trained then
    match prepare_features recent with
    | none => (st, ⟨false, "Insufficient recent data", [], none, none⟩)
    | some feats =>
      match st.scaler, st.model with
      | some sc, some m =>
        let scaled := lib.transform sc feats
        let labels := lib.predictLabels m scaled
        let scores := lib.decisionScores m scaled
        let anomalies := ((labels.zip scores).zip recent).filterMap
          (fun p =>
            if p.1.1 = -1 then
              some ⟨p.2.timestamp, round3 p.1.2, p.2.cpu, p.2.ram, p.2.disk,
                calculate_severity p.1.2 p.2⟩
            else none)
        (st, ⟨true, "Analyzed {len(recent_telemetry_data)} data points", anomalies,
          some anomalies.length,
          some (round3 ((anomalies.length : ℚ) / (recent.length : ℚ)))⟩)
      | _, _ => (st, ⟨false, "Anomaly detection error: estimator missing", [], none, none⟩)
  else (st, ⟨false, "Model not trained - need baseline data", [], none, none⟩)

/-- `PerformanceAnomalyDetector.detect_anomalies`: retrains from the given
baseline when it is truthy and has at least 10 samples, then scores the
recent window with whatever model state is then present. -/
def detect_anomalies {S M : Type} (lib : ForestLib S M) (st : DetectorState S M)
    (recent baseline : List TelemetrySample) : DetectorState S M × AnomalyResult :=
  if baseline ≠ [] ∧ 10 ≤ baseline.length then
    let tb := train_baseline lib st baseline
    if tb.2 then scoreRecent lib tb.1 recent
    else (tb.1, ⟨false, "Failed to train baseline model", [], none, none⟩)
  else scoreRecent lib st recent

/-! ### PredictionService (`services/prediction_service.py`)

The Mongo reads (`get_telemetry_data`) are modelled by passing the fetched
windows as arguments; `save_prediction` is modelled by returning the list
of `PredictionRecord`s written.  `create_ml_alert` is not modelled (no
claim refers to alerts), and the broad per-method `except` handlers —
which can only be reached through I/O failures outside this pure core —
are not represented. -/

/-- `config.py`: `MINIMUM_DATA_POINTS = 3`. -/
def MINIMUM_DATA_POINTS : ℕ := 3

/-- A row of the `ml_predictions` collection as written by
`save_prediction` (payload and timestamp omitted). -/
structure PredictionRecord where
  asset_id : String
  prediction_type : String
  model_version : String
deriving DecidableEq

/-- `PredictionService.run_disk_prediction`: gate on the sample count, run
the predictor, persist on success (and only then return the payload). -/
def run_disk_prediction (asset : String) (data : List TelemetrySample) :
    Option DiskPrediction × List PredictionRecord :=
  if data.length < MINIMUM_DATA_POINTS then (none, [])
  else
    let p := predict_disk_full_date data
    if p.success = true then (some p, [⟨asset, "disk_space_prediction", "1.0.0"⟩])
    else (none, [])

/-- `PredictionService.run_anomaly_detection`: gate on baseline/recent
counts, run the detector, persist only when the result is successful with a
positive anomaly count; the result dict itself is returned either way. -/
def run_anomaly_detection {S M : Type} (lib : ForestLib S M) (st : DetectorState S M)
    (asset : String) (baselineData recentData : List TelemetrySample) :
    DetectorState S M × Option AnomalyResult × List PredictionRecord :=
  if baselineData.length < MINIMUM_DATA_POINTS ∨ recentData.length < 5 then (st, none, [])
  else
    let out := detect_anomalies lib st recentData baselineData
    if out.2.success = true ∧ 0 < out.2.anomaly_count.getD 0 then
      (out.1, some out.2, [⟨asset, "anomaly_detection", "1.0.0"⟩])
    else (out.1, some out.2, [])

/-- `PredictionService.run_performance_analysis`: gate on the sample count,
run the analyzer, persist on success; the analysis dict is returned whether
or not it succeeded. -/
def run_performance_analysis (asset : String) (data : List TelemetrySample) :
    Option PerfResult × List PredictionRecord :=
  if data.length < MINIMUM_DATA_POINTS then (none, [])
  else
    let a := analyze_performance_trends data
    if a.success = true then (some a, [⟨asset, "performance_analysis", "1.0.0"⟩])
    else (some a, [])

/-- The result bundle of `run_full_analysis` (its `timestamp` field is
omitted). -/
structure AnalysisBundle where
  asset_id : String
  disk_prediction : Option DiskPrediction
  anomaly_detection : Option AnomalyResult
  performance_analysis : Option PerfResult
deriving DecidableEq

/-- `PredictionService.run_full_analysis`: the three analyses in order.
`weekData` is the 168-hour window (used as disk/performance input and as
the anomaly baseline), `dayData` the 24-hour recent window. -/
def run_full_analysis {S M : Type} (lib : ForestLib S M) (st : DetectorState S M)
    (asset : String) (weekData dayData : List TelemetrySample) :
    AnalysisBundle × DetectorState S M × List PredictionRecord :=
  let d := run_disk_prediction asset weekData
  let a := run_anomaly_detection lib st asset weekData dayData
  let p := run_performance_analysis asset weekData
  (⟨asset, d.1, a.2.1, p.1⟩, a.1, d.2 ++ a.2.2 ++ p.2)

/-- `PredictionService.run_analysis_for_all_assets`: iterate the active
assets, appending each asset's bundle, and on a raised exception log and
continue with the remaining assets.  The per-asset analysis (which may
raise, e.g. on store errors) is abstracted as an `Except`-valued function. -/
def run_analysis_for_all_assets {α ε β : Type} (f : α → Except ε β) :
    List α → List β
  | [] => []
  | a :: rest =>
    match f a with
    | Except.ok r => r :: run_analysis_for_all_assets f rest
    | Except.error _ => run_analysis_for_all_assets f rest

/-! ### Concrete fixtures for witnesses and counterexamples -/

/-- A concrete `ForestLib` instance standing in for the scikit-learn pair:
identity scaling, and a forest that labels every row an inlier (label 1,
score 0) — the behaviour of a fitted `IsolationForest` on a recent window
without outliers. -/
def inlierLib : ForestLib Unit Unit where
  fitScaler := fun _ => ()
  transform := fun _ rows => rows
  fit := fun _ => ()
  predictLabels := fun _ rows => rows.map (fun _ => 1)
  decisionScores := fun _ rows => rows.map (fun _ => 0)

/-- Hourly samples with constant 50% metrics. -/
def flatWindow (n : ℕ) : List TelemetrySample :=
  (List.range n).map (fun i => ⟨i * 3600, 50, 50, 50, i % 24, (i / 24) % 7⟩)

/-- Hourly samples whose disk usage climbs 1% per hour. -/
def rampWindow (n : ℕ) : List TelemetrySample :=
  (List.range n).map (fun i => ⟨i * 3600, 50, 50, 50 + i, i % 24, (i / 24) % 7⟩)

/-- Three hourly samples whose disk usage climbs 1/10000 % per hour: a
perfect fit with a tiny positive slope. -/
def tinySlopeWindow : List TelemetrySample :=
  (List.range 3).map (fun i => ⟨i * 3600, 50, 50, (i : ℚ) / 10000, i % 24, (i / 24) % 7⟩)

/-- Four hourly samples with alternating disk usage 50/80: R² = 0.2. -/
def noisyWindow : List TelemetrySample :=
  [⟨0, 50, 50, 50, 0, 0⟩, ⟨3600, 50, 50, 80, 1, 0⟩,
   ⟨7200, 50, 50, 50, 2, 0⟩, ⟨10800, 50, 50, 80, 3, 0⟩]

/-- Five hourly samples with cpu/ram at 95% and disk at 75%. -/
def hotWindow : List TelemetrySample :=
  (List.range 5).map (fun i => ⟨i * 3600, 95, 95, 75, i % 24, (i / 24) % 7⟩)

/-! ### Shared helper lemmas -/

lemma prepare_features_of_lt {l : List TelemetrySample} (h : l.length < 10) :
    prepare_features l = none := if_pos h

lemma prepare_features_of_ge {l : List TelemetrySample} (h : ¬ l.length < 10) :
    prepare_features l = some ((sortByTime l).map featureRow) := if_neg h

lemma flatWindow_length (n : ℕ) : (flatWindow n).length = n := by
  simp [flatWindow]

lemma rampWindow_length (n : ℕ) : (rampWindow n).length = n := by
  simp [rampWindow]

lemma insertByTime_length (x : TelemetrySample) (l : List TelemetrySample) :
    (insertByTime x l).length = l.length + 1 := by
  induction l with
  | nil => rfl
  | cons y ys ih =>
    simp only [insertByTime]
    split_ifs <;> simp [ih]

lemma sortByTime_length (l : List TelemetrySample) :
    (sortByTime l).length = l.length := by
  induction l with
  | nil => rfl
  | cons x xs ih => simp [sortByTime, insertByTime_length, List.foldr] at ih ⊢; omega

/-! ### C7 — severity classification -/

/-- C7: for every anomalous sample, `_calculate_severity` returns exactly the
maximum of the score-based base severity (score < −0.5 → High, < −0.3 →
Medium, else Low) and the usage escalation (High above 95%, Medium above
85%), and in particular never returns less than the base severity. -/
theorem calculate_severity_is_max (score : ℚ) (pt : TelemetrySample) :
    sevRank (calculate_severity score pt)
      = max (sevRank (baseSeverity score)) (sevRank (usageEscalation pt))
  ∧ sevRank (baseSeverity score) ≤ sevRank (calculate_severity score pt) := by
  unfold calculate_severity baseSeverity usageEscalation
  split_ifs <;> simp_all [sevRank]

/-! ### C10 — recommendation totality -/

/-- C10: `get_recommendation` maps every failed prediction to the fixed
insufficient-data string, and every successful prediction to one of the five
fixed recommendation strings. -/
theorem get_recommendation_total (r : DiskPrediction) :
    (r.success = false →
      get_recommendation r = "Unable to generate recommendation - insufficient data")
  ∧ (r.success = true →
      get_recommendation r ∈ ["Disk space is healthy - no immediate action needed",
        "🚨 URGENT: Disk will be full in <3 days - immediate cleanup required",
        "⚠️ WARNING: Schedule disk cleanup within next few days",
        "📅 PLAN: Schedule maintenance within 2 weeks",
        "ℹ️ INFO: Monitor disk usage - trending upward"]) := by
  constructor
  · intro h
    simp [get_recommendation, h]
  · intro h
    simp only [get_recommendation, h]
    cases r.days_remaining with
    | none => simp
    | some d =>
      simp only [Bool.true_eq_false, if_false]
      split_ifs <;> simp

theorem get_recommendation_total_witness :
    ((⟨false, "Insufficient data for prediction", none, 0, none, none, none⟩ :
        DiskPrediction).success = false
      ∧ get_recommendation ⟨false, "Insufficient data for prediction", none, 0, none, none, none⟩
        = "Unable to generate recommendation - insufficient data")
  ∧ ((⟨true, "Disk usage stable or decreasing", some 999, 1, some ("stable"), none, none⟩ :
        DiskPrediction).success = true
      ∧ get_recommendation
          ⟨true, "Disk usage stable or decreasing", some 999, 1, some ("stable"), none, none⟩
        ∈ ["Disk space is healthy - no immediate action needed",
          "🚨 URGENT: Disk will be full in <3 days - immediate cleanup required",
          "⚠️ WARNING: Schedule disk cleanup within next few days",
          "📅 PLAN: Schedule maintenance within 2 weeks",
          "ℹ️ INFO: Monitor disk usage - trending upward"]) :=
  ⟨⟨rfl, (get_recommendation_total _).1 rfl⟩, ⟨rfl, (get_recommendation_total _).2 rfl⟩⟩

/-! ### C9 — fleet sweep fault isolation -/

/-- C9: `run_analysis_for_all_assets` returns exactly the bundles of the
assets whose analysis did not raise (each equal to that asset's own result,
unaffected by the others), so one failing asset never aborts the sweep. -/
theorem sweep_fault_isolation {α ε β : Type} (f : α → Except ε β) (assets : List α) :
    run_analysis_for_all_assets f assets = assets.filterMap (fun a => (f a).toOption)
  ∧ ∀ a r, a ∈ assets → f a = Except.ok r →
      r ∈ run_analysis_for_all_assets f assets := by
  have h : run_analysis_for_all_assets f assets
      = assets.filterMap (fun a => (f a).toOption) := by
    induction assets with
    | nil => rfl
    | cons a rest ih =>
      cases hf : f a <;>
        simp [run_analysis_for_all_assets, hf, Except.toOption, ih]
  refine ⟨h, ?_⟩
  intro a r ha hf
  rw [h]
  exact List.mem_filterMap.2 ⟨a, ha, by simp [hf, Except.toOption]⟩

/-- A concrete per-asset analysis in which asset 2's store read raises. -/
def sweepProbe : ℕ → Except String ℕ :=
  fun n => if n = 2 then Except.error ("store failure") else Except.ok (n * 10)

theorem sweep_fault_isolation_witness :
    (1 : ℕ) ∈ [1, 2, 3]
  ∧ sweepProbe 1 = Except.ok 10
  ∧ 10 ∈ run_analysis_for_all_assets sweepProbe [1, 2, 3]
  ∧ run_analysis_for_all_assets sweepProbe [1, 2, 3] = [10, 30] := by
  refine ⟨by simp, rfl, ?_, by rfl⟩
  exact (sweep_fault_isolation sweepProbe [1, 2, 3]).2 1 10 (by simp) rfl

/-! ### C4 — detector floor of 10 samples on the recent window -/

/-- C4: whenever the recent window has fewer than 10 samples (in particular
5–9 samples, which pass the orchestrator's ≥5 recent gate), `detect_anomalies`
returns a failure payload with an empty anomalies list and an
insufficient-data message ("Insufficient recent data" whenever the baseline
reached the 10-sample training floor, and "Model not trained - need baseline
data" on an untrained detector otherwise). -/
theorem detect_anomalies_insufficient_recent {S M : Type} (lib : ForestLib S M)
    (st : DetectorState S M) (recent baseline : List TelemetrySample)
    (hr : recent.length < 10) :
    (detect_anomalies lib st recent baseline).2.success = false
  ∧ (detect_anomalies lib st recent baseline).2.anomalies = []
  ∧ ((detect_anomalies lib st recent baseline).2.message = "Insufficient recent data"
      ∨ (detect_anomalies lib st recent baseline).2.message
          = "Model not trained - need baseline data")
  ∧ (10 ≤ baseline.length →
      (detect_anomalies lib st recent baseline).2.message = "Insufficient recent data") := by
  have hprep : prepare_features recent = none := prepare_features_of_lt hr
  by_cases hb : baseline ≠ [] ∧ 10 ≤ baseline.length
  · obtain ⟨hbne, hb10⟩ := hb
    have hbp := prepare_features_of_ge (l := baseline) (by omega)
    simp [detect_anomalies, if_pos (And.intro hbne hb10), train_baseline, hbp,
      scoreRecent, hprep]
  · simp only [detect_anomalies, if_neg hb]
    by_cases ht : st.is_trained
    · simp [scoreRecent, ht, hprep]
    · refine ⟨by simp [scoreRecent, ht], by simp [scoreRecent, ht],
        Or.inr (by simp [scoreRecent, ht]), ?_⟩
      intro h10
      exact absurd ⟨List.ne_nil_of_length_pos (by omega), h10⟩ hb

theorem detect_anomalies_insufficient_recent_witness :
    (flatWindow 5).length < 10
  ∧ (detect_anomalies inlierLib initDetectorState (flatWindow 5) (flatWindow 10)).2.success
      = false
  ∧ (detect_anomalies inlierLib initDetectorState (flatWindow 5) (flatWindow 10)).2.anomalies
      = []
  ∧ (detect_anomalies inlierLib initDetectorState (flatWindow 5) (flatWindow 10)).2.message
      = "Insufficient recent data" := by
  have h5 : (flatWindow 5).length < 10 := by rw [flatWindow_length]; omega
  have h10 : 10 ≤ (flatWindow 10).length := by rw [flatWindow_length]
  have h := detect_anomalies_insufficient_recent inlierLib initDetectorState
    (flatWindow 5) (flatWindow 10) h5
  exact ⟨h5, h.1, h.2.1, h.2.2.2 h10⟩

/-! ### C2 — per-call determinism of the detector -/

/-- C2 (amended): when the baseline window has at least 10 samples,
`detect_anomalies` retrains from scratch, so its result is a function of the
two windows alone — independent of any model state left by earlier calls.
(With a smaller baseline the detector instead falls back to previously
trained state; see the counterexample.) -/
theorem detect_anomalies_per_call_deterministic {S M : Type} (lib : ForestLib S M)
    (s1 s2 : DetectorState S M) (recent baseline : List TelemetrySample)
    (hb : 10 ≤ baseline.length) :
    (detect_anomalies lib s1 recent baseline).2
      = (detect_anomalies lib s2 recent baseline).2 := by
  have hne : baseline ≠ [] := List.ne_nil_of_length_pos (by omega)
  have hbp := prepare_features_of_ge (l := baseline) (by omega)
  simp [detect_anomalies, if_pos (And.intro hne hb), train_baseline, hbp]

theorem detect_anomalies_per_call_deterministic_witness :
    10 ≤ (flatWindow 12).length
  ∧ (detect_anomalies inlierLib initDetectorState (flatWindow 10) (flatWindow 12)).2
      = (detect_anomalies inlierLib
          ((detect_anomalies inlierLib initDetectorState (flatWindow 12) (flatWindow 12)).1)
          (flatWindow 10) (flatWindow 12)).2 := by
  have h12 : 10 ≤ (flatWindow 12).length := by rw [flatWindow_length]; omega
  exact ⟨h12, detect_anomalies_per_call_deterministic inlierLib _ _ _ _ h12⟩

/-- C2 counterexample: the claim as stated fails for a 9-sample baseline
(which passes the orchestrator's ≥3 baseline gate).  On a fresh detector the
call fails with "Model not trained"; after an earlier call on other windows
trained the instance, the same (recent, baseline) pair succeeds against the
stale model. -/
theorem detect_anomalies_state_leak_counterexample :
    (detect_anomalies inlierLib initDetectorState (flatWindow 10) (flatWindow 9)).2
      ≠ (detect_anomalies inlierLib
          ((detect_anomalies inlierLib initDetectorState (flatWindow 12) (flatWindow 12)).1)
          (flatWindow 10) (flatWindow 9)).2 := by
  have hL : (detect_anomalies inlierLib initDetectorState
      (flatWindow 10) (flatWindow 9)).2.success = false := by
    simp [detect_anomalies, flatWindow_length, scoreRecent, initDetectorState]
  have hR : (detect_anomalies inlierLib
      ((detect_anomalies inlierLib initDetectorState (flatWindow 12) (flatWindow 12)).1)
      (flatWindow 10) (flatWindow 9)).2.success = true := by
    have hne12 : flatWindow 12 ≠ [] :=
      List.ne_nil_of_length_pos (by rw [flatWindow_length]; omega)
    simp [detect_anomalies, flatWindow_length, train_baseline, hne12,
      scoreRecent, prepare_features, inlierLib, initDetectorState]
  intro h
  rw [h, hR] at hL
  exact Bool.noConfusion hL

/-! ### C1 — persistence of successful results -/

/-- C1 (amended): disk prediction and performance analysis persist exactly
one `PredictionRecord`, tagged with model_version 1.0.0, for every
successful result; anomaly detection persists one such record only when the
successful result reports a positive anomaly count, and persists nothing
when a successful run reports zero anomalies. -/
theorem persist_record_on_success {S M : Type} (lib : ForestLib S M)
    (st : DetectorState S M) (asset : String) (week day : List TelemetrySample) :
    (¬ week.length < MINIMUM_DATA_POINTS → (predict_disk_full_date week).success = true →
      (run_disk_prediction asset week).2 = [⟨asset, "disk_space_prediction", "1.0.0"⟩])
  ∧ (¬ week.length < MINIMUM_DATA_POINTS → (analyze_performance_trends week).success = true →
      (run_performance_analysis asset week).2 = [⟨asset, "performance_analysis", "1.0.0"⟩])
  ∧ (¬ (week.length < MINIMUM_DATA_POINTS ∨ day.length < 5) →
      ((detect_anomalies lib st day week).2.success = true →
        0 < (detect_anomalies lib st day week).2.anomaly_count.getD 0 →
        (run_anomaly_detection lib st asset week day).2.2
          = [⟨asset, "anomaly_detection", "1.0.0"⟩])
      ∧ ((detect_anomalies lib st day week).2.success = true →
        (detect_anomalies lib st day week).2.anomaly_count.getD 0 = 0 →
        (run_anomaly_detection lib st asset week day).2.2 = [])) := by
  refine ⟨?_, ?_, ?_⟩
  · intro hlen hs
    simp [run_disk_prediction, if_neg hlen, hs]
  · intro hlen hs
    simp [run_performance_analysis, if_neg hlen, hs]
  · intro hgate
    constructor
    · intro hs hc
      simp [run_anomaly_detection, if_neg hgate, hs, hc]
    · intro hs hc
      simp [run_anomaly_detection, if_neg hgate, hs, hc]

theorem persist_record_on_success_witness :
    ¬ ((rampWindow 5).length < MINIMUM_DATA_POINTS)
  ∧ (predict_disk_full_date (rampWindow 5)).success = true
  ∧ (run_disk_prediction ("asset-1") (rampWindow 5)).2
      = [⟨"asset-1", "disk_space_prediction", "1.0.0"⟩]
  ∧ (analyze_performance_trends (rampWindow 5)).success = true
  ∧ (run_performance_analysis ("asset-1") (rampWindow 5)).2
      = [⟨"asset-1", "performance_analysis", "1.0.0"⟩] := by
  have hlen : ¬ ((rampWindow 5).length < MINIMUM_DATA_POINTS) := by
    rw [rampWindow_length]; simp [MINIMUM_DATA_POINTS]
  have hds : (predict_disk_full_date (rampWindow 5)).success = true := by
    norm_num [predict_disk_full_date, prepare_data, confidence, slopeOf, interceptOf,
      currentHours, currentUsage, xsOf, ysOf, sortByTime, rampWindow, List.range_succ,
      insertByTime, hoursElapsed, olsSlope, olsIntercept, olsR2, listMean, devSqSum,
      crossSum, sqErrSum]
  have hps : (analyze_performance_trends (rampWindow 5)).success = true := by
    simp [analyze_performance_trends, rampWindow_length]
  exact ⟨hlen, hds,
    (persist_record_on_success inlierLib initDetectorState ("asset-1")
      (rampWindow 5) []).1 hlen hds,
    hps,
    (persist_record_on_success inlierLib initDetectorState ("asset-1")
      (rampWindow 5) []).2.1 hlen hps⟩

/-- C1 counterexample: a successful anomaly detection run reporting zero
anomalies persists no `PredictionRecord` at all — the orchestrator's guard
`result['success'] and result['anomaly_count'] > 0` skips `save_prediction`. -/
theorem zero_anomaly_run_not_persisted_counterexample :
    ((run_anomaly_detection inlierLib initDetectorState ("asset-1")
        (flatWindow 10) (flatWindow 10)).2.1.map (fun r => r.success)) = some true
  ∧ ((run_anomaly_detection inlierLib initDetectorState ("asset-1")
        (flatWindow 10) (flatWindow 10)).2.1.map (fun r => r.anomaly_count)) = some (some 0)
  ∧ (run_anomaly_detection inlierLib initDetectorState ("asset-1")
        (flatWindow 10) (flatWindow 10)).2.2 = [] := by
  have hne : flatWindow 10 ≠ [] :=
    List.ne_nil_of_length_pos (by rw [flatWindow_length]; omega)
  refine ⟨?_, ?_, ?_⟩ <;>
    simp [run_anomaly_detection, detect_anomalies, train_baseline, scoreRecent,
      prepare_features, inlierLib, initDetectorState, hne, flatWindow_length,
      sortByTime_length, MINIMUM_DATA_POINTS, List.replicate, flatWindow,
      List.range_succ]

/-! ### C3 — nullability of the three bundle fields -/

/-- C3 (amended): in `run_full_analysis`, the `disk_prediction` field is
null whenever its model had insufficient data or failed, and a non-null
`disk_prediction` is always a successful payload; `anomaly_detection` and
`performance_analysis`, however, are null exactly when the orchestrator's
minimum-sample gate fails — when the model itself returns a failure payload
(success=false), that payload is returned non-null in the bundle. -/
theorem full_analysis_nullability {S M : Type} (lib : ForestLib S M)
    (st : DetectorState S M) (asset : String) (week day : List TelemetrySample) :
    (∀ p, (run_full_analysis lib st asset week day).1.disk_prediction = some p →
      p.success = true)
  ∧ ((run_full_analysis lib st asset week day).1.performance_analysis
      = if week.length < MINIMUM_DATA_POINTS then none
        else some (analyze_performance_trends week))
  ∧ ((run_full_analysis lib st asset week day).1.anomaly_detection
      = if week.length < MINIMUM_DATA_POINTS ∨ day.length < 5 then none
        else some ((detect_anomalies lib st day week).2)) := by
  refine ⟨?_, ?_, ?_⟩
  · intro p hp
    simp only [run_full_analysis, run_disk_prediction] at hp
    by_cases h1 : week.length < MINIMUM_DATA_POINTS
    · rw [if_pos h1] at hp
      exact absurd hp (by simp)
    · rw [if_neg h1] at hp
      by_cases h2 : (predict_disk_full_date week).success = true
      · rw [if_pos h2] at hp
        simp only [Option.some.injEq] at hp
        exact hp ▸ h2
      · rw [if_neg h2] at hp
        exact absurd hp (by simp)
  · simp only [run_full_analysis, run_performance_analysis]
    split_ifs <;> simp
  · simp only [run_full_analysis, run_anomaly_detection]
    split_ifs <;> simp

theorem full_analysis_nullability_witness :
    (predict_disk_full_date (rampWindow 5)).success = true
  ∧ (run_full_analysis inlierLib initDetectorState ("asset-1")
        (rampWindow 5) (flatWindow 10)).1.performance_analysis
      = some (analyze_performance_trends (rampWindow 5))
  ∧ (run_full_analysis inlierLib initDetectorState ("asset-1")
        (rampWindow 5) (flatWindow 10)).1.anomaly_detection
      = some ((detect_anomalies inlierLib initDetectorState
          (flatWindow 10) (rampWindow 5)).2) := by
  have h := full_analysis_nullability inlierLib initDetectorState ("asset-1")
    (rampWindow 5) (flatWindow 10)
  have hds : (predict_disk_full_date (rampWindow 5)).success = true := by
    norm_num [predict_disk_full_date, prepare_data, confidence, slopeOf, interceptOf,
      currentHours, currentUsage, xsOf, ysOf, sortByTime, rampWindow, List.range_succ,
      insertByTime, hoursElapsed, olsSlope, olsIntercept, olsR2, listMean, devSqSum,
      crossSum, sqErrSum]
  have hd : (run_full_analysis inlierLib initDetectorState ("asset-1")
      (rampWindow 5) (flatWindow 10)).1.disk_prediction
      = some (predict_disk_full_date (rampWindow 5)) := by
    simp [run_full_analysis, run_disk_prediction, rampWindow_length,
      MINIMUM_DATA_POINTS, hds]
  refine ⟨h.1 _ hd, ?_, ?_⟩
  · rw [h.2.1]
    simp [rampWindow_length, MINIMUM_DATA_POINTS]
  · rw [h.2.2]
    simp [rampWindow_length, flatWindow_length, MINIMUM_DATA_POINTS]

/-- C3 counterexample: with a 4-sample week window (which passes the ≥3
disk/performance gate) and a 5-sample day window (which passes the ≥5
recent gate), both the performance analysis and the anomaly detection
return failure payloads (success=false), and `run_full_analysis` stores
them non-null in the bundle. -/
theorem failure_payload_non_null_counterexample :
    (((run_full_analysis inlierLib initDetectorState ("asset-1")
        (flatWindow 4) (flatWindow 5)).1.performance_analysis).map (fun r => r.success))
      = some false
  ∧ (((run_full_analysis inlierLib initDetectorState ("asset-1")
        (flatWindow 4) (flatWindow 5)).1.anomaly_detection).map (fun r => r.success))
      = some false := by
  constructor <;>
    simp [run_full_analysis, run_performance_analysis, run_anomaly_detection,
      analyze_performance_trends, detect_anomalies, scoreRecent, initDetectorState,
      flatWindow_length, MINIMUM_DATA_POINTS]

/-! ### Branch lemmas for `predict_disk_full_date` -/

lemma predict_of_insufficient {data : List TelemetrySample} (h3 : data.length < 3) :
    predict_disk_full_date data
      = ⟨false, "Insufficient data for prediction", none, 0, none, none, none⟩ := by
  simp [predict_disk_full_date, prepare_data, if_pos h3]

lemma predict_of_unreliable {data : List TelemetrySample} (h3 : ¬ data.length < 3)
    (hc : confidence data < 0.3) :
    predict_disk_full_date data
      = ⟨false, "Data too inconsistent for reliable prediction", none,
          confidence data, none, none, none⟩ := by
  simp [predict_disk_full_date, prepare_data, if_neg h3, if_pos hc]

lemma predict_of_stable {data : List TelemetrySample} (h3 : ¬ data.length < 3)
    (hc : ¬ confidence data < 0.3) (hm : slopeOf data ≤ 0) :
    predict_disk_full_date data
      = ⟨true, "Disk usage stable or decreasing", some 999, confidence data,
          some ("stable"), none, none⟩ := by
  simp [predict_disk_full_date, prepare_data, if_neg h3, if_neg hc, if_pos hm]

lemma predict_of_increasing {data : List TelemetrySample} (h3 : ¬ data.length < 3)
    (hc : ¬ confidence data < 0.3) (hm : ¬ slopeOf data ≤ 0) :
    predict_disk_full_date data
      = ⟨true, "Disk predicted to be full in {days_to_full} days",
          some (round1 (max 0 (((100 - interceptOf data) / slopeOf data
            - currentHours data) / 24))),
          round2 (confidence data),
          some (if slopeOf data > 0.5 then ("rapidly_increasing")
            else if slopeOf data > 0.1 then ("increasing") else ("slowly_increasing")),
          some (round2 (slopeOf data * 24)),
          some (round1 (currentUsage data))⟩ := by
  simp [predict_disk_full_date, prepare_data, if_neg h3, if_neg hc, if_neg hm]

/-! ### C6 — failure conditions of the disk predictor -/

/-- C6: `predict_disk_full_date` returns a failure payload (success=false,
days_remaining null) exactly when the window has fewer than 3 samples
(with confidence reported as 0.0) or the clamped R² is below 0.30 (with
confidence reported as computed); in every other case it succeeds. -/
theorem disk_predict_failure_iff (data : List TelemetrySample) :
    ((predict_disk_full_date data).success = false
      ↔ (data.length < 3 ∨ confidence data < 0.3))
  ∧ (data.length < 3 →
      predict_disk_full_date data
        = ⟨false, "Insufficient data for prediction", none, 0, none, none, none⟩)
  ∧ (¬ data.length < 3 → confidence data < 0.3 →
      predict_disk_full_date data
        = ⟨false, "Data too inconsistent for reliable prediction", none,
            confidence data, none, none, none⟩) := by
  by_cases h3 : data.length < 3
  · rw [predict_of_insufficient h3]
    exact ⟨by simp [h3], fun _ => rfl, fun h => absurd h3 h⟩
  · by_cases hc : confidence data < 0.3
    · rw [predict_of_unreliable h3 hc]
      exact ⟨by simp [h3, hc], fun h => absurd h h3, fun _ _ => rfl⟩
    · refine ⟨?_, fun h => absurd h h3, fun _ hcc => absurd hcc hc⟩
      by_cases hm : slopeOf data ≤ 0
      · rw [predict_of_stable h3 hc hm]
        simp [h3, hc]
      · rw [predict_of_increasing h3 hc hm]
        simp [h3, hc]

theorem disk_predict_failure_iff_witness :
    (flatWindow 2).length < 3
  ∧ predict_disk_full_date (flatWindow 2)
      = ⟨false, "Insufficient data for prediction", none, 0, none, none, none⟩
  ∧ ¬ (noisyWindow.length < 3)
  ∧ confidence noisyWindow < 0.3
  ∧ predict_disk_full_date noisyWindow
      = ⟨false, "Data too inconsistent for reliable prediction", none,
          confidence noisyWindow, none, none, none⟩ := by
  have h2 : (flatWindow 2).length < 3 := by rw [flatWindow_length]; omega
  have hn3 : ¬ (noisyWindow.length < 3) := by simp [noisyWindow]
  have hcc : confidence noisyWindow < 0.3 := by
    norm_num [confidence, xsOf, ysOf, noisyWindow, sortByTime, insertByTime,
      hoursElapsed, olsR2, olsSlope, olsIntercept, listMean, devSqSum, crossSum,
      sqErrSum]
  exact ⟨h2, (disk_predict_failure_iff _).2.1 h2, hn3, hcc,
    (disk_predict_failure_iff _).2.2 hn3 hcc⟩

/-! ### C5 — shape of successful disk predictions -/

/-- C5 (amended): on a window of at least 3 samples with clamped R² at
least 0.3 the predictor succeeds; if the fitted slope is ≤ 0 it reports
trend "stable", days_remaining 999 and the computed confidence, and
otherwise days_remaining = max(0, ((100 − intercept)/slope − hours_elapsed
of the last sample)/24) rounded to 1 decimal, daily_increase_rate =
slope × 24 rounded to 2 decimals, and trend "rapidly_increasing" when
slope > 0.5, "increasing" when slope > 0.1, else "slowly_increasing". -/
theorem disk_predict_success_shape (data : List TelemetrySample)
    (h3 : ¬ data.length < 3) (hc : ¬ confidence data < 0.3) :
    (predict_disk_full_date data).success = true
  ∧ (slopeOf data ≤ 0 →
      predict_disk_full_date data
        = ⟨true, "Disk usage stable or decreasing", some 999, confidence data,
            some ("stable"), none, none⟩)
  ∧ (¬ slopeOf data ≤ 0 →
      (predict_disk_full_date data).days_remaining
        = some (round1 (max 0 (((100 - interceptOf data) / slopeOf data
            - currentHours data) / 24)))
      ∧ (predict_disk_full_date data).daily_increase_rate
          = some (round2 (slopeOf data * 24))
      ∧ (predict_disk_full_date data).trend
          = some (if slopeOf data > 0.5 then ("rapidly_increasing")
              else if slopeOf data > 0.1 then ("increasing")
              else ("slowly_increasing"))) := by
  by_cases hm : slopeOf data ≤ 0
  · rw [predict_of_stable h3 hc hm]
    exact ⟨rfl, fun _ => rfl, fun h => absurd hm h⟩
  · rw [predict_of_increasing h3 hc hm]
    exact ⟨rfl, fun h => absurd h hm, fun _ => ⟨rfl, rfl, rfl⟩⟩

theorem disk_predict_success_shape_witness :
    ¬ ((rampWindow 5).length < 3)
  ∧ ¬ (confidence (rampWindow 5) < 0.3)
  ∧ (predict_disk_full_date (rampWindow 5)).success = true := by
  have h3 : ¬ ((rampWindow 5).length < 3) := by rw [rampWindow_length]; omega
  have hc : ¬ (confidence (rampWindow 5) < 0.3) := by
    norm_num [confidence, xsOf, ysOf, rampWindow, List.range_succ, sortByTime,
      insertByTime, hoursElapsed, olsR2, olsSlope, olsIntercept, listMean,
      devSqSum, crossSum, sqErrSum]
  exact ⟨h3, hc, (disk_predict_success_shape _ h3 hc).1⟩

/-- C5 counterexample: on a perfectly linear window with slope 1/10000 %/h,
the stored daily_increase_rate is `round(slope*24, 2) = 0.0`, not the exact
`slope × 24 = 0.0024` the claim states. -/
theorem daily_rate_rounding_counterexample :
    ¬ (tinySlopeWindow.length < 3)
  ∧ ¬ (confidence tinySlopeWindow < 0.3)
  ∧ ¬ (slopeOf tinySlopeWindow ≤ 0)
  ∧ slopeOf tinySlopeWindow * 24 = 3 / 1250
  ∧ (predict_disk_full_date tinySlopeWindow).daily_increase_rate = some 0
  ∧ (predict_disk_full_date tinySlopeWindow).daily_increase_rate
      ≠ some (slopeOf tinySlopeWindow * 24) := by
  have h3 : ¬ (tinySlopeWindow.length < 3) := by simp [tinySlopeWindow]
  have hs : slopeOf tinySlopeWindow = 1 / 10000 := by
    norm_num [slopeOf, xsOf, ysOf, tinySlopeWindow, List.range_succ, sortByTime,
      insertByTime, hoursElapsed, olsSlope, listMean, devSqSum, crossSum]
  have hc : ¬ (confidence tinySlopeWindow < 0.3) := by
    norm_num [confidence, xsOf, ysOf, tinySlopeWindow, List.range_succ, sortByTime,
      insertByTime, hoursElapsed, olsR2, olsSlope, olsIntercept, listMean,
      devSqSum, crossSum, sqErrSum]
  have hm : ¬ (slopeOf tinySlopeWindow ≤ 0) := by rw [hs]; norm_num
  have hrate : (predict_disk_full_date tinySlopeWindow).daily_increase_rate
      = some 0 := by
    rw [predict_of_increasing h3 hc hm]
    rw [show round2 (slopeOf tinySlopeWindow * 24) = 0 by
      rw [hs]; norm_num [round2, round_eq]]
  refine ⟨h3, hc, hm, by rw [hs]; norm_num, hrate, ?_⟩
  rw [hrate, hs]
  norm_num

/-! ### C8 — the health score formula -/

/-- C8: for a window of at least 5 samples whose metric averages lie in
[0, 100], the analyzer's health score equals the spec formula
clamp(0,100, 0.4×(100−cpu_avg) + 0.4×(100−ram_avg) + 0.2×(100−disk_avg))
rounded to 1 decimal; for averages cpu=95, ram=95, disk=75 it is 9.0. -/
theorem health_score_matches_spec (data : List TelemetrySample)
    (h5 : ¬ data.length < 5)
    (hc0 : 0 ≤ cpuAvg data) (hc1 : cpuAvg data ≤ 100)
    (hr0 : 0 ≤ ramAvg data) (hr1 : ramAvg data ≤ 100)
    (hd0 : 0 ≤ diskAvg data) (hd1 : diskAvg data ≤ 100) :
    (analyze_performance_trends data).health_score
      = some (round1 (healthScoreSpec (cpuAvg data) (ramAvg data) (diskAvg data)))
  ∧ (cpuAvg data = 95 → ramAvg data = 95 → diskAvg data = 75 →
      (analyze_performance_trends data).health_score = some 9) := by
  have key : calculate_health_score ⟨cpuAvg data, ramAvg data, diskAvg data⟩
      = round1 (healthScoreSpec (cpuAvg data) (ramAvg data) (diskAvg data)) := by
    unfold calculate_health_score healthScoreSpec
    have e1 : max 0 (100 - cpuAvg data) = 100 - cpuAvg data :=
      max_eq_right (by linarith)
    have e2 : max 0 (100 - ramAvg data) = 100 - ramAvg data :=
      max_eq_right (by linarith)
    have e3 : max 0 (100 - diskAvg data) = 100 - diskAvg data :=
      max_eq_right (by linarith)
    have hS1 : (0.4 : ℚ) * (100 - cpuAvg data) + 0.4 * (100 - ramAvg data)
        + 0.2 * (100 - diskAvg data) ≤ 100 := by linarith
    have hS0 : (0 : ℚ) ≤ 0.4 * (100 - cpuAvg data) + 0.4 * (100 - ramAvg data)
        + 0.2 * (100 - diskAvg data) := by linarith
    rw [min_eq_right hS1, max_eq_right hS0, e1, e2, e3]
    ring_nf
  constructor
  · simp [analyze_performance_trends, if_neg h5, key]
  · intro e1 e2 e3
    simp only [analyze_performance_trends, if_neg h5, Option.some.injEq]
    rw [show (⟨cpuAvg data, ramAvg data, diskAvg data⟩ : PerfStats)
        = ⟨95, 95, 75⟩ by rw [e1, e2, e3]]
    norm_num [calculate_health_score, round1, round_eq]

theorem health_score_matches_spec_witness :
    ¬ (hotWindow.length < 5)
  ∧ cpuAvg hotWindow = 95
  ∧ ramAvg hotWindow = 95
  ∧ diskAvg hotWindow = 75
  ∧ (analyze_performance_trends hotWindow).health_score = some 9 := by
  have h5 : ¬ (hotWindow.length < 5) := by simp [hotWindow]
  have e1 : cpuAvg hotWindow = 95 := by
    norm_num [cpuAvg, listMean, hotWindow, List.range_succ, sortByTime, insertByTime]
  have e2 : ramAvg hotWindow = 95 := by
    norm_num [ramAvg, listMean, hotWindow, List.range_succ, sortByTime, insertByTime]
  have e3 : diskAvg hotWindow = 75 := by
    norm_num [diskAvg, listMean, hotWindow, List.range_succ, sortByTime, insertByTime]
  refine ⟨h5, e1, e2, e3, ?_⟩
  exact (health_score_matches_spec hotWindow h5 (by rw [e1]; norm_num)
    (by rw [e1]; norm_num) (by rw [e2]; norm_num) (by rw [e2]; norm_num)
    (by rw [e3]; norm_num) (by rw [e3]; norm_num)).2 e1 e2 e3
